import Mathlib

/-!
Shallow embedding of `src/data_tool/data_processor.py` (a date-range filter
and exporter for personal data dumps) together with proofs about the
properties its specification states.

Modelling conventions:
* Python `datetime` values are a six-field structure compared
  lexicographically, exactly as Python compares `datetime` objects.
* `datetime.strptime` for the two fixed formats used by the program
  (`%Y-%m-%d` and `%Y-%m-%dT%H:%M:%SZ`) is modelled by executable parsers
  returning `Option DateTime`; a parse failure models the `ValueError`
  the call raises.
* Files and directories are explicit association lists; writing a file
  prepends, and lookup takes the most recent binding, which models
  truncating overwrite by `open(..., "w")`.
* A Python function that can raise returns an `Option`/a `Bool` flag:
  `none` / `false` means an exception escaped the function at that point,
  with the state reached so far kept alongside.
* `print` calls are modelled by accumulating the printed messages.
-/

/-- A timestamp as Python's `datetime` holds it: year, month, day, hour,
minute, second.  The program never uses sub-second precision. -/
structure DateTime where
  year : Nat
  month : Nat
  day : Nat
  hour : Nat
  minute : Nat
  second : Nat
deriving Repr, DecidableEq

/-- Python's `<=` on `datetime` values: lexicographic field comparison. -/
def DateTime.leb (a b : DateTime) : Bool :=
  if a.year ≠ b.year then decide (a.year < b.year)
  else if a.month ≠ b.month then decide (a.month < b.month)
  else if a.day ≠ b.day then decide (a.day < b.day)
  else if a.hour ≠ b.hour then decide (a.hour < b.hour)
  else if a.minute ≠ b.minute then decide (a.minute < b.minute)
  else decide (a.second ≤ b.second)

/-- Python's `<` on `datetime` values: strict lexicographic comparison. -/
def DateTime.ltb (a b : DateTime) : Bool :=
  if a.year ≠ b.year then decide (a.year < b.year)
  else if a.month ≠ b.month then decide (a.month < b.month)
  else if a.day ≠ b.day then decide (a.day < b.day)
  else if a.hour ≠ b.hour then decide (a.hour < b.hour)
  else if a.minute ≠ b.minute then decide (a.minute < b.minute)
  else decide (a.second < b.second)

/-- Split a character list at every occurrence of a separator character. -/
def splitOnChar (sep : Char) : List Char → List (List Char)
  | [] => [[]]
  | c :: cs =>
    if c = sep then [] :: splitOnChar sep cs
    else
      match splitOnChar sep cs with
      | [] => [[c]]
      | g :: gs => (c :: g) :: gs

/-- Parse a run of decimal digits; `none` on the empty list or any
non-digit character. -/
def parseDigits (l : List Char) : Option Nat :=
  if l.length > 0 && l.all Char.isDigit then
    some (l.foldl (fun acc c => acc * 10 + (c.toNat - 48)) 0)
  else
    none

/-- `datetime.strptime(s, "%Y-%m-%d")`: three dash-separated digit groups,
with field ranges validated; time-of-day fields are zero (midnight). -/
def strptimeDate (s : String) : Option DateTime :=
  match splitOnChar '-' s.data with
  | [ys, ms, ds] =>
    match parseDigits ys, parseDigits ms, parseDigits ds with
    | some y, some m, some d =>
      if 1 ≤ m && m ≤ 12 && 1 ≤ d && d ≤ 31 then
        some ⟨y, m, d, 0, 0, 0⟩
      else none
    | _, _, _ => none
  | _ => none

/-- Split off a single trailing character, when present. -/
def dropLastChar (c : Char) (l : List Char) : Option (List Char) :=
  match l.reverse with
  | [] => none
  | x :: xs => if x = c then some xs.reverse else none

/-- `datetime.strptime(s, "%Y-%m-%dT%H:%M:%SZ")`: a date part and a
`Z`-terminated time part, with field ranges validated. -/
def strptimeTs (s : String) : Option DateTime :=
  match splitOnChar 'T' s.data with
  | [dpart, tpart] =>
    match dropLastChar 'Z' tpart with
    | none => none
    | some tcore =>
      match splitOnChar '-' dpart, splitOnChar ':' tcore with
      | [ys, ms, ds], [hs, mins, ss] =>
        match parseDigits ys, parseDigits ms, parseDigits ds,
              parseDigits hs, parseDigits mins, parseDigits ss with
        | some y, some mo, some d, some h, some mi, some sec =>
          if 1 ≤ mo && mo ≤ 12 && 1 ≤ d && d ≤ 31
              && h ≤ 23 && mi ≤ 59 && sec ≤ 59 then
            some ⟨y, mo, d, h, mi, sec⟩
          else none
        | _, _, _, _, _, _ => none
      | _, _ => none
  | _ => none

/-- `pd.to_datetime` applied to one cell, restricted to the two formats the
data carries: a full timestamp or a plain date. -/
def pdToDatetime (s : String) : Option DateTime :=
  (strptimeTs s).orElse (fun _ => strptimeDate s)

/-- A JSON scalar as the streaming-history log carries it. -/
inductive JsonVal where
  | str (s : String)
  | num (n : Int)
  | null
deriving Repr, DecidableEq

/-- Python's `str(...)` of a JSON scalar, as an f-string renders it. -/
def JsonVal.pystr : JsonVal → String
  | .str s => s
  | .num n => toString n
  | .null => "None"

/-- One log entry: a JSON object, modelled as its key/value list. -/
abbrev Entry := List (String × JsonVal)

/-- Python `entry[k]`: the value at key `k`; `none` models the `KeyError`
raised when the key is absent. -/
def getKey (e : Entry) (k : String) : Option JsonVal :=
  List.lookup k e

/-- The parsed `ts` field of an entry: `entry["ts"]` followed by
`strptime(..., "%Y-%m-%dT%H:%M:%SZ")`; `none` models the exception
(missing key, non-string value, or malformed timestamp). -/
def entryTs (e : Entry) : Option DateTime :=
  match getKey e "ts" with
  | some (JsonVal.str s) => strptimeTs s
  | _ => none

/-- Membership of a timestamp in the inclusive range `[st, en]`. -/
def inRangeB (st en t : DateTime) : Bool := st.leb t && t.leb en

/-- Whether the log-filter comprehension keeps an entry. -/
def entryKeepB (st en : DateTime) (e : Entry) : Bool :=
  match entryTs e with
  | some t => inRangeB st en t
  | none => false

/-- The list-comprehension filter of `filter_spotify_data` (lines 74-77):
keep the entries whose `ts` lies in `[st, en]`; `none` when some entry's
`ts` is absent or malformed (the comprehension raises). -/
def filterEntries (st en : DateTime) : List Entry → Option (List Entry)
  | [] => some []
  | e :: es =>
    match entryTs e with
    | none => none
    | some t =>
      match filterEntries st en es with
      | none => none
      | some rest => some (if inRangeB st en t then e :: rest else rest)

/-- `filter_spotify_data` (lines 56-79) at the data level: the two
`strptime` calls on the range boundaries followed by the comprehension.
The file read and `json.load` are supplied as the already-parsed `data`. -/
def filter_spotify_data (data : List Entry) (start_date end_date : String) : Option (List Entry) :=
  match strptimeDate start_date, strptimeDate end_date with
  | some st, some en => filterEntries st en data
  | _, _ => none

/-- A parsed CSV file: header and rows, as `pd.read_csv` yields them. -/
structure DataFrame where
  cols : List String
  rows : List (List String)
deriving Repr, DecidableEq

/-- One cell's date conversion: cell access at the date-column index, then
`pd.to_datetime`; `none` models the exception pandas raises. -/
def cellTs (i : Nat) (row : List String) : Option DateTime :=
  match row.get? i with
  | none => none
  | some cell => pdToDatetime cell

/-- Whether the boolean-mask filter keeps a row. -/
def rowKeepB (i : Nat) (st en : DateTime) (row : List String) : Bool :=
  match cellTs i row with
  | some t => inRangeB st en t
  | none => false

/-- The timestamp of a row under a named date column: column index lookup
in the header followed by `cellTs`. -/
def rowTs (cols : List String) (date_column : String) (row : List String) : Option DateTime :=
  match cols.findIdx? (fun c => c == date_column) with
  | none => none
  | some i => cellTs i row

/-- The column conversion plus boolean-mask filter of `filter_data_by_date`
(lines 26-31): convert every cell of the date column (failing when any is
malformed, as `pd.to_datetime` over the column does) and keep the rows
whose converted value lies in `[st, en]`. -/
def filterRows (i : Nat) (st en : DateTime) : List (List String) → Option (List (List String))
  | [] => some []
  | r :: rs =>
    match cellTs i r with
    | none => none
    | some t =>
      match filterRows i st en rs with
      | none => none
      | some rest => some (if inRangeB st en t then r :: rest else rest)

/-- `filter_data_by_date` (lines 9-33) at the data level: the file read
(`pd.read_csv`) is supplied as the already-parsed `df`.  Fails (`none`)
when the date column is absent from the header, some cell of it is
malformed, or a range boundary does not parse — modelling the exception
the Python function lets escape. -/
def filter_data_by_date (df : DataFrame) (start_date end_date date_column : String) : Option DataFrame :=
  match df.cols.findIdx? (fun c => c == date_column) with
  | none => none
  | some i =>
    match strptimeDate start_date, strptimeDate end_date with
    | some st, some en =>
      match filterRows i st en df.rows with
      | none => none
      | some rows => some ⟨df.cols, rows⟩
    | _, _ => none

/-- The filesystem of CSV files: association list from path to parsed
frame; a later write shadows an earlier binding at the same path. -/
abbrev CsvFS := List (String × DataFrame)

/-- `filtered_data.to_csv(output_path, index=False)` (line 53). -/
def writeCsv (fs : CsvFS) (path : String) (df : DataFrame) : CsvFS :=
  (path, df) :: fs

/-- `process_data_sources` (lines 35-54).  Returns the filesystem after the
run, the printed messages in order, and whether the loop ran to completion:
`false` means `filter_data_by_date` raised, which aborts the whole loop,
since the loop body has no try/except.  A missing file is skipped with a
printed notice (`continue`). -/
def process_data_sources (sources : List (String × String × String))
    (start_date end_date : String) (fs : CsvFS) : CsvFS × List String × Bool :=
  match sources with
  | [] => (fs, [], true)
  | (file_path, date_column, output_path) :: rest =>
    match List.lookup file_path fs with
    | none =>
      let r := process_data_sources rest start_date end_date fs
      (r.1, ("File not found: " ++ file_path) :: r.2.1, r.2.2)
    | some df =>
      match filter_data_by_date df start_date end_date date_column with
      | none => (fs, ["Processing file: " ++ file_path], false)
      | some filtered =>
        let fs1 := writeCsv fs output_path filtered
        let r := process_data_sources rest start_date end_date fs1
        (r.1, ("Processing file: " ++ file_path)
                :: ("Filtered data saved to: " ++ output_path) :: r.2.1, r.2.2)

/-- The filesystem of text files plus the set of created directories.
Writing prepends; lookup takes the newest binding, modelling the
truncating overwrite of `open(path, "w")`. -/
structure TextFS where
  dirs : List String
  files : List (String × String)
deriving Repr, DecidableEq

/-- `os.makedirs(d, exist_ok=True)`. -/
def addDir (fs : TextFS) (d : String) : TextFS :=
  ⟨d :: fs.dirs, fs.files⟩

/-- Write (create or truncate-and-replace) a text file. -/
def writeText (fs : TextFS) (path content : String) : TextFS :=
  ⟨fs.dirs, (path, content) :: fs.files⟩

/-- The current content of a text file, `none` when it does not exist. -/
def readText (fs : TextFS) (path : String) : Option String :=
  List.lookup path fs.files

/-- `os.path.join(output_dir, f"spotify_journal_{start}_to_{end}.txt")`
(line 92). -/
def journalPath (output_dir start_date end_date : String) : String :=
  output_dir ++ "/spotify_journal_" ++ start_date ++ "_to_" ++ end_date ++ ".txt"

/-- The f-string block written for one entry (lines 96-104); `none` models
the `KeyError` raised when one of the six indexed keys is absent. -/
def journalLine (e : Entry) : Option String :=
  match getKey e "ts", getKey e "master_metadata_track_name",
        getKey e "master_metadata_album_artist_name",
        getKey e "master_metadata_album_album_name",
        getKey e "platform", getKey e "ms_played" with
  | some ts, some track, some artist, some album, some platform, some ms =>
    some ("Date: " ++ ts.pystr ++ "\n"
      ++ "Track: " ++ track.pystr ++ "\n"
      ++ "Artist: " ++ artist.pystr ++ "\n"
      ++ "Album: " ++ album.pystr ++ "\n"
      ++ "Platform: " ++ platform.pystr ++ "\n"
      ++ "Time Played: " ++ ms.pystr ++ " ms\n"
      ++ "---\n")
  | _, _, _, _, _, _ => none

/-- The write loop of the exporter: the text written to the (already
truncated) file before the loop finishes or raises, and whether it
finished.  On a `KeyError` the blocks of the earlier entries are already
in the file. -/
def renderEntries : List Entry → String × Bool
  | [] => ("", true)
  | e :: es =>
    match journalLine e with
    | none => ("", false)
    | some block =>
      let r := renderEntries es
      (block ++ r.1, r.2)

/-- `save_spotify_data_for_journaling` (lines 81-107): `os.makedirs` on the
output directory, open the date-range-named file with mode "w" (truncating
any existing content), write one block per entry, and print the completion
notice.  The `Bool` is `false` when a `KeyError` escaped (in which case
the notice is not printed but the partial file remains). -/
def save_spotify_data_for_journaling (filtered_data : List Entry)
    (output_dir start_date end_date : String) (fs : TextFS) :
    TextFS × List String × Bool :=
  let output_file := journalPath output_dir start_date end_date
  let r := renderEntries filtered_data
  (writeText (addDir fs output_dir) output_file r.1,
   if r.2 then ["Journal-ready Spotify data saved to: " ++ output_file] else [],
   r.2)

/-- Truthiness of an optional environment string: Python's `not x` is true
for both an unset variable and an empty string. -/
def truthy : Option String → Bool
  | none => false
  | some s => !(s == "")

/-- The world `process_spotify_data` runs in: the two environment values
read from `.env`, the directory listing of the filesystem, and the parsed
JSON content of each file (`json.load` of an open succeeds exactly on the
paths listed). -/
structure SpotifyWorld where
  spotify_data_path : Option String
  output_path : Option String
  listing : List (String × List String)
  jsonFiles : List (String × List Entry)
deriving Repr, DecidableEq

/-- The naming-convention test of line 132: the name starts with the fixed
Streaming_History_Audio stem and ends with the .json extension. -/
def matchesConvention (file_name : String) : Bool :=
  List.isPrefixOf "Streaming_History_Audio".data file_name.data
    && List.isSuffixOf ".json".data file_name.data

/-- The per-file loop of `process_spotify_data` (lines 131-139): for each
matching name, filter the file's entries and save the journal.  `false`
aborts the loop: an unreadable file, a malformed entry, or a `KeyError`
in the exporter raises out of the whole function. -/
def processSpotifyFiles (jsonFiles : List (String × List Entry))
    (spotify_path output_dir start_date end_date : String)
    (names : List String) (fs : TextFS) : TextFS × List String × Bool :=
  match names with
  | [] => (fs, [], true)
  | n :: ns =>
    if matchesConvention n then
      let file_path := spotify_path ++ "/" ++ n
      match List.lookup file_path jsonFiles with
      | none => (fs, [("Processing Spotify file: " ++ file_path)], false)
      | some data =>
        match filter_spotify_data data start_date end_date with
        | none => (fs, [("Processing Spotify file: " ++ file_path)], false)
        | some filtered =>
          let s := save_spotify_data_for_journaling filtered output_dir
            start_date end_date fs
          if s.2.2 then
            let r := processSpotifyFiles jsonFiles spotify_path output_dir
              start_date end_date ns s.1
            (r.1, ("Processing Spotify file: " ++ file_path) :: s.2.1 ++ r.2.1, r.2.2)
          else
            (s.1, ("Processing Spotify file: " ++ file_path) :: s.2.1, false)
    else
      processSpotifyFiles jsonFiles spotify_path output_dir
        start_date end_date ns fs

/-- `process_spotify_data` (lines 109-139): read the two configuration
values, return early with a printed notice when the Spotify path is unset,
empty or nonexistent, or the output path is unset or empty; otherwise
create the output directory and run the per-file loop over the source
directory's listing. -/
def process_spotify_data (w : SpotifyWorld) (start_date end_date : String)
    (fs : TextFS) : TextFS × List String × Bool :=
  match w.spotify_data_path with
  | none => (fs, ["Spotify data path not found or not specified in .env file."], true)
  | some sp =>
    if sp == "" then
      (fs, ["Spotify data path not found or not specified in .env file."], true)
    else
      match List.lookup sp w.listing with
      | none => (fs, ["Spotify data path not found or not specified in .env file."], true)
      | some names =>
        match w.output_path with
        | none => (fs, ["Output path not specified in .env file."], true)
        | some out =>
          if out == "" then
            (fs, ["Output path not specified in .env file."], true)
          else
            processSpotifyFiles w.jsonFiles sp out start_date end_date
              names (addDir fs out)

/-- The world `process_screenshots` runs in: the two environment values,
the directory listing, and each regular file's modification time
(`os.path.isfile` holds exactly for the paths listed here). -/
structure ScreenshotWorld where
  screenshots_path : Option String
  output_path : Option String
  listing : List (String × List String)
  mtimes : List (String × DateTime)
deriving Repr, DecidableEq

/-- The per-file loop of `process_screenshots` (lines 166-176): the names
of the regular files whose modification time lies in `[st, en]`, in
listing order; these are the files copied into the screenshots output
directory with their names unchanged. -/
def screenshotCopies (mtimes : List (String × DateTime))
    (screenshots_path : String) (st en : DateTime)
    (names : List String) : List String :=
  names.filter (fun n =>
    match List.lookup (screenshots_path ++ "/" ++ n) mtimes with
    | some t => inRangeB st en t
    | none => false)

/-- `process_screenshots` (lines 141-176): read the two configuration
values, return early with a printed notice when the screenshots path is
unset, empty or nonexistent, or the output path is unset or empty;
otherwise copy every in-range regular file into the `screenshots`
subdirectory.  Returns the copied names, the printed messages relevant to
the early returns, and whether the function completed (`false` only when a
range boundary fails to parse, which line 163 raises before the loop). -/
def process_screenshots (w : ScreenshotWorld) (start_date end_date : String) :
    List String × List String × Bool :=
  match w.screenshots_path with
  | none => ([], ["Screenshots path not found or not specified in .env file."], true)
  | some sp =>
    if sp == "" then
      ([], ["Screenshots path not found or not specified in .env file."], true)
    else
      match List.lookup sp w.listing with
      | none => ([], ["Screenshots path not found or not specified in .env file."], true)
      | some names =>
        match w.output_path with
        | none => ([], ["Output path not specified in .env file."], true)
        | some out =>
          if out == "" then
            ([], ["Output path not specified in .env file."], true)
          else
            match strptimeDate start_date, strptimeDate end_date with
            | some st, some en =>
              (screenshotCopies w.mtimes sp st en names, [], true)
            | _, _ => ([], [], false)

/-- The tabular frame of the spec's scenario: three rows dated
2023-12-20, 2023-12-25, 2024-01-02. -/
def dfEx : DataFrame :=
  ⟨["date", "v"], [["2023-12-20", "a"], ["2023-12-25", "b"], ["2024-01-02", "c"]]⟩

/-- What the tabular filter keeps from `dfEx` for the range
2023-12-24 .. 2023-12-31. -/
def dfExOut : DataFrame := ⟨["date", "v"], [["2023-12-25", "b"]]⟩

/-- A log entry timestamped at midnight on the range's start day. -/
def entryEx1 : Entry := [("ts", JsonVal.str "2023-12-24T00:00:00Z")]

/-- A log entry timestamped one second before midnight ending the range's
last day. -/
def entryEx2 : Entry := [("ts", JsonVal.str "2023-12-31T23:59:59Z")]

/-- A CSV file lacking the requested date column, so the Tabular Filter
raises on it. -/
def dfBad : DataFrame := ⟨["x"], [["1"]]⟩

/-- A batch filesystem holding a malformed first file and a well-formed
second file. -/
def fsC1 : CsvFS := [("a.csv", dfBad), ("b.csv", dfEx)]

/-- An entry carrying a timestamp but lacking the track-name key. -/
def entryNoTrack : Entry :=
  [("ts", JsonVal.str "2023-12-25T10:00:00Z"),
   ("master_metadata_album_artist_name", JsonVal.str "Artist"),
   ("master_metadata_album_album_name", JsonVal.str "Album"),
   ("platform", JsonVal.str "ios"),
   ("ms_played", JsonVal.num 12345)]

/-- An entry with all six keys present but null metadata values, as real
streaming-history data carries for podcast episodes. -/
def entryNullFields : Entry :=
  [("ts", JsonVal.str "2023-12-25T10:00:00Z"),
   ("master_metadata_track_name", JsonVal.null),
   ("master_metadata_album_artist_name", JsonVal.null),
   ("master_metadata_album_album_name", JsonVal.null),
   ("platform", JsonVal.str "ios"),
   ("ms_played", JsonVal.num 12345)]

/-- Whether an entry carries every key the journal exporter indexes. -/
def hasJournalKeys (x : Entry) : Bool :=
  (getKey x "ts").isSome
    && (getKey x "master_metadata_track_name").isSome
    && (getKey x "master_metadata_album_artist_name").isSome
    && (getKey x "master_metadata_album_album_name").isSome
    && (getKey x "platform").isSome
    && (getKey x "ms_played").isSome

/-- A complete log entry titled TrackA. -/
def entryA : Entry :=
  [("ts", JsonVal.str "2023-12-25T10:00:00Z"),
   ("master_metadata_track_name", JsonVal.str "TrackA"),
   ("master_metadata_album_artist_name", JsonVal.str "ArtistA"),
   ("master_metadata_album_album_name", JsonVal.str "AlbumA"),
   ("platform", JsonVal.str "ios"),
   ("ms_played", JsonVal.num 1000)]

/-- A complete log entry titled TrackB. -/
def entryB : Entry :=
  [("ts", JsonVal.str "2023-12-26T11:00:00Z"),
   ("master_metadata_track_name", JsonVal.str "TrackB"),
   ("master_metadata_album_artist_name", JsonVal.str "ArtistB"),
   ("master_metadata_album_album_name", JsonVal.str "AlbumB"),
   ("platform", JsonVal.str "web"),
   ("ms_played", JsonVal.num 2000)]

/-- A Spotify world whose source directory holds two files matching the
naming convention, with different entries. -/
def wC3 : SpotifyWorld :=
  ⟨some "sp", some "out",
   [("sp", ["Streaming_History_Audio_2023_0.json",
            "Streaming_History_Audio_2023_1.json"])],
   [("sp/Streaming_History_Audio_2023_0.json", [entryA]),
    ("sp/Streaming_History_Audio_2023_1.json", [entryB])]⟩

/-- A Spotify world with no configuration at all. -/
def wEmpty : SpotifyWorld := ⟨none, none, [], []⟩

/-- A screenshot world whose configured source directory does not exist. -/
def vMissingDir : ScreenshotWorld := ⟨some "shots", some "out", [], []⟩

theorem DateTime.leb_refl (a : DateTime) : a.leb a = true := by
  simp [DateTime.leb]

theorem DateTime.ltb_of_not_leb {a b : DateTime} (h : a.leb b = false) :
    b.ltb a = true := by
  cases a; cases b
  simp only [DateTime.leb, DateTime.ltb] at *
  split_ifs at * <;> simp_all <;> omega

theorem filterEntries_eq (st en : DateTime) (l : List Entry) :
    filterEntries st en l =
      if l.all (fun e => (entryTs e).isSome)
      then some (l.filter (entryKeepB st en)) else none := by
  induction l with
  | nil => simp [filterEntries]
  | cons e es ih =>
    simp only [filterEntries, ih, List.all_cons, List.filter_cons]
    cases hts : entryTs e with
    | none => simp [hts]
    | some t =>
      by_cases hall : es.all (fun x => (entryTs x).isSome) = true
      · simp [hts, hall, entryKeepB]
      · simp only [Bool.not_eq_true] at hall
        simp [hts, hall]

theorem filterRows_eq (i : Nat) (st en : DateTime) (l : List (List String)) :
    filterRows i st en l =
      if l.all (fun r => (cellTs i r).isSome)
      then some (l.filter (rowKeepB i st en)) else none := by
  induction l with
  | nil => simp [filterRows]
  | cons r rs ih =>
    simp only [filterRows, ih, List.all_cons, List.filter_cons]
    cases hts : cellTs i r with
    | none => simp [hts]
    | some t =>
      by_cases hall : rs.all (fun x => (cellTs i x).isSome) = true
      · simp [hts, hall, rowKeepB]
      · simp only [Bool.not_eq_true] at hall
        simp [hts, hall]

theorem entryKeepB_ts_isSome {st en : DateTime} {e : Entry}
    (h : entryKeepB st en e = true) : (entryTs e).isSome := by
  unfold entryKeepB at h
  cases hts : entryTs e with
  | none => rw [hts] at h; cases h
  | some t => simp

theorem rowKeepB_ts_isSome {i : Nat} {st en : DateTime} {r : List String}
    (h : rowKeepB i st en r = true) : (cellTs i r).isSome := by
  unfold rowKeepB at h
  cases hts : cellTs i r with
  | none => rw [hts] at h; cases h
  | some t => simp

theorem filter_spotify_data_some {data outL : List Entry} {s e : String}
    {st en : DateTime}
    (hs : strptimeDate s = some st) (he : strptimeDate e = some en)
    (h : filter_spotify_data data s e = some outL) :
    (∀ x ∈ data, (entryTs x).isSome) ∧ outL = data.filter (entryKeepB st en) := by
  unfold filter_spotify_data at h
  rw [hs, he] at h
  dsimp only at h
  rw [filterEntries_eq] at h
  by_cases hall : data.all (fun x => (entryTs x).isSome) = true
  · rw [if_pos hall] at h
    exact ⟨List.all_eq_true.mp hall, (Option.some_injective _ h).symm⟩
  · rw [if_neg hall] at h
    cases h

theorem filter_spotify_data_mk {data : List Entry} {s e : String}
    {st en : DateTime}
    (hs : strptimeDate s = some st) (he : strptimeDate e = some en)
    (hall : ∀ x ∈ data, (entryTs x).isSome) :
    filter_spotify_data data s e = some (data.filter (entryKeepB st en)) := by
  unfold filter_spotify_data
  rw [hs, he]
  dsimp only
  rw [filterEntries_eq, if_pos (List.all_eq_true.mpr hall)]

theorem filter_data_by_date_some {df out : DataFrame} {s e c : String}
    (h : filter_data_by_date df s e c = some out) :
    ∃ i st en, df.cols.findIdx? (fun x => x == c) = some i ∧
      strptimeDate s = some st ∧ strptimeDate e = some en ∧
      (∀ r ∈ df.rows, (cellTs i r).isSome) ∧
      out = ⟨df.cols, df.rows.filter (rowKeepB i st en)⟩ := by
  unfold filter_data_by_date at h
  cases hfi : df.cols.findIdx? (fun x => x == c) with
  | none => rw [hfi] at h; cases h
  | some i =>
    rw [hfi] at h
    cases hs : strptimeDate s with
    | none => rw [hs] at h; cases h
    | some st =>
      cases he : strptimeDate e with
      | none => rw [hs, he] at h; cases h
      | some en =>
        rw [hs, he] at h
        dsimp only at h
        rw [filterRows_eq] at h
        by_cases hall : df.rows.all (fun r => (cellTs i r).isSome) = true
        · rw [if_pos hall] at h
          exact ⟨i, st, en, rfl, rfl, rfl, List.all_eq_true.mp hall,
            (Option.some_injective _ h).symm⟩
        · rw [if_neg hall] at h
          cases h

theorem filter_data_by_date_mk {df : DataFrame} {s e c : String}
    {i : Nat} {st en : DateTime}
    (hi : df.cols.findIdx? (fun x => x == c) = some i)
    (hs : strptimeDate s = some st) (he : strptimeDate e = some en)
    (hall : ∀ r ∈ df.rows, (cellTs i r).isSome) :
    filter_data_by_date df s e c
      = some ⟨df.cols, df.rows.filter (rowKeepB i st en)⟩ := by
  unfold filter_data_by_date
  rw [hi, hs, he]
  dsimp only
  rw [filterRows_eq, if_pos (List.all_eq_true.mpr hall)]

theorem filter_spotify_data_some_ex {data outL : List Entry} {s e : String}
    (h : filter_spotify_data data s e = some outL) :
    ∃ st en, strptimeDate s = some st ∧ strptimeDate e = some en ∧
      (∀ x ∈ data, (entryTs x).isSome) ∧ outL = data.filter (entryKeepB st en) := by
  cases hs : strptimeDate s with
  | none => unfold filter_spotify_data at h; rw [hs] at h; simp at h
  | some st =>
    cases he : strptimeDate e with
    | none => unfold filter_spotify_data at h; rw [hs, he] at h; simp at h
    | some en =>
      exact ⟨st, en, rfl, rfl, filter_spotify_data_some hs he h⟩

/-- C7: for every input sequence of records and every date range, the
surviving records appear in the filter's output in the same relative order
as in the input — both the tabular filter and the log filter return an
ordered subsequence (`List.Sublist`) of their input, never a reordering. -/
theorem C7_filter_preserves_order (df out : DataFrame) (data outL : List Entry)
    (s e c : String)
    (h1 : filter_data_by_date df s e c = some out)
    (h2 : filter_spotify_data data s e = some outL) :
    out.rows.Sublist df.rows ∧ outL.Sublist data := by
  constructor
  · obtain ⟨i, st, en, hi, hs, he, hall, hout⟩ := filter_data_by_date_some h1
    subst hout
    exact List.filter_sublist _
  · obtain ⟨st, en, hs, he, hall, hout⟩ := filter_spotify_data_some_ex h2
    subst hout
    exact List.filter_sublist _

/-- Witness for C7: the spec's scenario frame and a two-entry log. -/
theorem C7_filter_preserves_order_witness :
    dfExOut.rows.Sublist dfEx.rows ∧ [entryEx1].Sublist [entryEx1, entryEx2] :=
  C7_filter_preserves_order dfEx dfExOut [entryEx1, entryEx2] [entryEx1]
    "2023-12-24" "2023-12-31" "date" (by decide) (by decide)

/-- C8: applying either date-range filter to its own output with the same
range yields the identical result — filtering is idempotent for both the
tabular filter and the log filter. -/
theorem C8_filter_idempotent (df out : DataFrame) (data outL : List Entry)
    (s e c : String)
    (h1 : filter_data_by_date df s e c = some out)
    (h2 : filter_spotify_data data s e = some outL) :
    filter_data_by_date out s e c = some out ∧
      filter_spotify_data outL s e = some outL := by
  constructor
  · obtain ⟨i, st, en, hi, hs, he, hall, hout⟩ := filter_data_by_date_some h1
    subst hout
    have hall2 : ∀ r ∈ df.rows.filter (rowKeepB i st en), (cellTs i r).isSome :=
      fun r hr => rowKeepB_ts_isSome (List.of_mem_filter hr)
    have hmk := @filter_data_by_date_mk ⟨df.cols, df.rows.filter (rowKeepB i st en)⟩
      s e c i st en hi hs he hall2
    have hself : (df.rows.filter (rowKeepB i st en)).filter (rowKeepB i st en)
        = df.rows.filter (rowKeepB i st en) :=
      List.filter_eq_self.mpr (fun a ha => List.of_mem_filter ha)
    rw [hmk]
    dsimp only
    rw [hself]
  · obtain ⟨st, en, hs, he, hall, hout⟩ := filter_spotify_data_some_ex h2
    subst hout
    have hall2 : ∀ x ∈ data.filter (entryKeepB st en), (entryTs x).isSome :=
      fun x hx => entryKeepB_ts_isSome (List.of_mem_filter hx)
    have hself : (data.filter (entryKeepB st en)).filter (entryKeepB st en)
        = data.filter (entryKeepB st en) :=
      List.filter_eq_self.mpr (fun a ha => List.of_mem_filter ha)
    rw [filter_spotify_data_mk hs he hall2, hself]

/-- Witness for C8: the spec's scenario frame and a two-entry log. -/
theorem C8_filter_idempotent_witness :
    filter_data_by_date dfExOut "2023-12-24" "2023-12-31" "date" = some dfExOut ∧
      filter_spotify_data [entryEx1] "2023-12-24" "2023-12-31" = some [entryEx1] :=
  C8_filter_idempotent dfEx dfExOut [entryEx1, entryEx2] [entryEx1]
    "2023-12-24" "2023-12-31" "date" (by decide) (by decide)

theorem rowKeepB_iff {i : Nat} {st en : DateTime} {r : List String} :
    rowKeepB i st en r = true ↔
      ∃ t, cellTs i r = some t ∧ st.leb t = true ∧ t.leb en = true := by
  unfold rowKeepB
  cases hct : cellTs i r <;> simp [inRangeB]

theorem entryKeepB_iff {st en : DateTime} {x : Entry} :
    entryKeepB st en x = true ↔
      ∃ t, entryTs x = some t ∧ st.leb t = true ∧ t.leb en = true := by
  unfold entryKeepB
  cases hts : entryTs x <;> simp [inRangeB]

theorem rowTs_eq_cellTs {cols : List String} {c : String} {i : Nat}
    (hi : cols.findIdx? (fun x => x == c) = some i) (r : List String) :
    rowTs cols c r = cellTs i r := by
  unfold rowTs
  rw [hi]

/-- C5: for every tabular input and log input and every date range, each
filter's output is a subset of its input, every retained record's parsed
timestamp satisfies start ≤ ts ≤ end (in particular a record whose
timestamp equals the parsed start or the parsed end is retained, under the
data-model invariant start ≤ end), and every excluded record's timestamp
lies strictly outside the range — an exhaustive partition at the
boundaries. -/
theorem C5_boundary_partition (df out : DataFrame) (data outL : List Entry)
    (s e c : String) (st en : DateTime)
    (hs : strptimeDate s = some st) (he : strptimeDate e = some en)
    (h1 : filter_data_by_date df s e c = some out)
    (h2 : filter_spotify_data data s e = some outL) :
    ((∀ r ∈ out.rows, r ∈ df.rows)
      ∧ (∀ r ∈ out.rows, ∃ t, rowTs df.cols c r = some t
            ∧ st.leb t = true ∧ t.leb en = true)
      ∧ (∀ r ∈ df.rows, ∀ t, rowTs df.cols c r = some t →
            st.leb t = true → t.leb en = true → r ∈ out.rows)
      ∧ (st.leb en = true → ∀ r ∈ df.rows,
            rowTs df.cols c r = some st ∨ rowTs df.cols c r = some en →
            r ∈ out.rows)
      ∧ (∀ r ∈ df.rows, r ∉ out.rows → ∃ t, rowTs df.cols c r = some t
            ∧ (t.ltb st = true ∨ en.ltb t = true)))
    ∧ ((∀ x ∈ outL, x ∈ data)
      ∧ (∀ x ∈ outL, ∃ t, entryTs x = some t
            ∧ st.leb t = true ∧ t.leb en = true)
      ∧ (∀ x ∈ data, ∀ t, entryTs x = some t →
            st.leb t = true → t.leb en = true → x ∈ outL)
      ∧ (st.leb en = true → ∀ x ∈ data,
            entryTs x = some st ∨ entryTs x = some en → x ∈ outL)
      ∧ (∀ x ∈ data, x ∉ outL → ∃ t, entryTs x = some t
            ∧ (t.ltb st = true ∨ en.ltb t = true))) := by
  obtain ⟨i, st', en', hi, hs', he', hallR, houtR⟩ := filter_data_by_date_some h1
  rw [hs] at hs'
  rw [he] at he'
  injection hs' with hs''
  injection he' with he''
  subst hs''
  subst he''
  subst houtR
  obtain ⟨hallE, houtE⟩ := filter_spotify_data_some hs he h2
  subst houtE
  refine ⟨⟨?_, ?_, ?_, ?_, ?_⟩, ?_, ?_, ?_, ?_, ?_⟩
  · exact fun r hr => List.mem_of_mem_filter hr
  · intro r hr
    rw [rowTs_eq_cellTs hi]
    exact rowKeepB_iff.mp (List.of_mem_filter hr)
  · intro r hr t ht hst hte
    rw [rowTs_eq_cellTs hi] at ht
    exact List.mem_filter.mpr ⟨hr, rowKeepB_iff.mpr ⟨t, ht, hst, hte⟩⟩
  · intro hse r hr hor
    cases hor with
    | inl h =>
      rw [rowTs_eq_cellTs hi] at h
      exact List.mem_filter.mpr
        ⟨hr, rowKeepB_iff.mpr ⟨st, h, DateTime.leb_refl st, hse⟩⟩
    | inr h =>
      rw [rowTs_eq_cellTs hi] at h
      exact List.mem_filter.mpr
        ⟨hr, rowKeepB_iff.mpr ⟨en, h, hse, DateTime.leb_refl en⟩⟩
  · intro r hr hnot
    obtain ⟨t, hct⟩ := Option.isSome_iff_exists.mp (hallR r hr)
    refine ⟨t, by rw [rowTs_eq_cellTs hi]; exact hct, ?_⟩
    have hk : rowKeepB i st en r = false := by
      cases hk : rowKeepB i st en r
      · rfl
      · exact absurd (List.mem_filter.mpr ⟨hr, hk⟩) hnot
    unfold rowKeepB at hk
    rw [hct] at hk
    dsimp only at hk
    unfold inRangeB at hk
    cases hle : DateTime.leb st t with
    | false => exact Or.inl (DateTime.ltb_of_not_leb hle)
    | true =>
      rw [hle] at hk
      simp only [Bool.true_and] at hk
      exact Or.inr (DateTime.ltb_of_not_leb hk)
  · exact fun x hx => List.mem_of_mem_filter hx
  · intro x hx
    exact entryKeepB_iff.mp (List.of_mem_filter hx)
  · intro x hx t ht hst hte
    exact List.mem_filter.mpr ⟨hx, entryKeepB_iff.mpr ⟨t, ht, hst, hte⟩⟩
  · intro hse x hx hor
    cases hor with
    | inl h =>
      exact List.mem_filter.mpr
        ⟨hx, entryKeepB_iff.mpr ⟨st, h, DateTime.leb_refl st, hse⟩⟩
    | inr h =>
      exact List.mem_filter.mpr
        ⟨hx, entryKeepB_iff.mpr ⟨en, h, hse, DateTime.leb_refl en⟩⟩
  · intro x hx hnot
    obtain ⟨t, hts⟩ := Option.isSome_iff_exists.mp (hallE x hx)
    refine ⟨t, hts, ?_⟩
    have hk : entryKeepB st en x = false := by
      cases hk : entryKeepB st en x
      · rfl
      · exact absurd (List.mem_filter.mpr ⟨hx, hk⟩) hnot
    unfold entryKeepB at hk
    rw [hts] at hk
    dsimp only at hk
    unfold inRangeB at hk
    cases hle : DateTime.leb st t with
    | false => exact Or.inl (DateTime.ltb_of_not_leb hle)
    | true =>
      rw [hle] at hk
      simp only [Bool.true_and] at hk
      exact Or.inr (DateTime.ltb_of_not_leb hk)

/-- Witness for C5 at the spec's scenario inputs. -/
theorem C5_boundary_partition_witness : entryEx1 ∈ [entryEx1, entryEx2] :=
  (C5_boundary_partition dfEx dfExOut [entryEx1, entryEx2] [entryEx1]
    "2023-12-24" "2023-12-31" "date"
    ⟨2023, 12, 24, 0, 0, 0⟩ ⟨2023, 12, 31, 0, 0, 0⟩
    (by decide) (by decide) (by decide) (by decide)).2.1 entryEx1 (by decide)

/-- C4 counterexample: with log entries at 2023-12-24T00:00:00Z and
2023-12-31T23:59:59Z and the range 2023-12-24 .. 2023-12-31, the Log
Filter does not exclude both entries — its output is not empty. -/
theorem C4_counterexample :
    filter_spotify_data [entryEx1, entryEx2] "2023-12-24" "2023-12-31"
      ≠ some [] := by
  decide

/-- C4 amended: under the policy the implementation picks (parsing the
date-only end boundary as the timestamp 2023-12-31T00:00:00), the Log
Filter excludes the 23:59:59 entry but retains the entry equal to the
parsed start: the output is exactly the first entry. -/
theorem C4_end_boundary_midnight :
    filter_spotify_data [entryEx1, entryEx2] "2023-12-24" "2023-12-31"
      = some [entryEx1] := by
  decide

/-- C1 counterexample: in a batch whose first triple's file exists but has
no `date` column, `process_data_sources` aborts — the exception escapes
(completion flag `false`) and the remaining well-formed triple is never
written. -/
theorem C1_counterexample :
    (process_data_sources [("a.csv", "date", "outA"), ("b.csv", "date", "outB")]
        "2023-12-24" "2023-12-31" fsC1).2.2 = false
    ∧ List.lookup "outB"
        (process_data_sources [("a.csv", "date", "outA"), ("b.csv", "date", "outB")]
          "2023-12-24" "2023-12-31" fsC1).1 = none := by
  decide

/-- C1 amended: a triple whose file exists but fails inside the Tabular
Filter (for example a malformed or absent date column) aborts
`process_data_sources` at that point: nothing further is written, no later
triple is processed, and the exception escapes — only missing-file triples
are isolated, not filter failures. -/
theorem C1_failure_aborts_batch (fp dc op : String)
    (rest : List (String × String × String)) (s e : String) (fs : CsvFS)
    (df : DataFrame)
    (hlook : List.lookup fp fs = some df)
    (hfail : filter_data_by_date df s e dc = none) :
    process_data_sources ((fp, dc, op) :: rest) s e fs
      = (fs, ["Processing file: " ++ fp], false) := by
  unfold process_data_sources
  rw [hlook]
  dsimp only
  rw [hfail]

/-- Witness for the amended C1. -/
theorem C1_failure_aborts_batch_witness :
    process_data_sources [("a.csv", "date", "outA"), ("b.csv", "date", "outB")]
      "2023-12-24" "2023-12-31" fsC1
      = (fsC1, ["Processing file: " ++ "a.csv"], false) :=
  C1_failure_aborts_batch "a.csv" "date" "outA" [("b.csv", "date", "outB")]
    "2023-12-24" "2023-12-31" fsC1 dfBad (by decide) (by decide)

/-- C6: in a batch of three tabular triples where only the second file is
missing, the second is skipped with a printed notice and produces no
output, and the first and third are both filtered and written
unaffected. -/
theorem C6_missing_file_isolated
    (fp1 dc1 op1 fp2 dc2 op2 fp3 dc3 op3 s e : String) (fs : CsvFS)
    (df1 df3 out1 out3 : DataFrame)
    (h1 : List.lookup fp1 fs = some df1)
    (h2 : List.lookup fp2 fs = none)
    (h3 : List.lookup fp3 fs = some df3)
    (hne2 : fp2 ≠ op1)
    (hne3 : fp3 ≠ op1)
    (hf1 : filter_data_by_date df1 s e dc1 = some out1)
    (hf3 : filter_data_by_date df3 s e dc3 = some out3) :
    process_data_sources [(fp1, dc1, op1), (fp2, dc2, op2), (fp3, dc3, op3)] s e fs
      = (writeCsv (writeCsv fs op1 out1) op3 out3,
         ["Processing file: " ++ fp1, "Filtered data saved to: " ++ op1,
          "File not found: " ++ fp2,
          "Processing file: " ++ fp3, "Filtered data saved to: " ++ op3],
         true) := by
  have hb2 : (fp2 == op1) = false := beq_eq_false_iff_ne.mpr hne2
  have hb3 : (fp3 == op1) = false := beq_eq_false_iff_ne.mpr hne3
  simp [process_data_sources, List.lookup, h1, h2, h3, hb2, hb3, hf1, hf3, writeCsv]

/-- Witness for C6 with a concrete three-triple batch. -/
theorem C6_missing_file_isolated_witness :
    process_data_sources
      [("a.csv", "date", "o1"), ("b.csv", "date", "o2"), ("c.csv", "date", "o3")]
      "2023-12-24" "2023-12-31" [("a.csv", dfEx), ("c.csv", dfEx)]
      = (writeCsv (writeCsv [("a.csv", dfEx), ("c.csv", dfEx)] "o1" dfExOut)
          "o3" dfExOut,
         ["Processing file: " ++ "a.csv", "Filtered data saved to: " ++ "o1",
          "File not found: " ++ "b.csv",
          "Processing file: " ++ "c.csv", "Filtered data saved to: " ++ "o3"],
         true) :=
  C6_missing_file_isolated "a.csv" "date" "o1" "b.csv" "date" "o2"
    "c.csv" "date" "o3" "2023-12-24" "2023-12-31"
    [("a.csv", dfEx), ("c.csv", dfEx)] dfEx dfEx dfExOut dfExOut
    (by decide) (by decide) (by decide) (by decide) (by decide)
    (by decide) (by decide)

theorem journalLine_isSome_of_keys {x : Entry} (h : hasJournalKeys x = true) :
    (journalLine x).isSome := by
  unfold hasJournalKeys at h
  simp only [Bool.and_eq_true, Option.isSome_iff_exists] at h
  obtain ⟨⟨⟨⟨⟨⟨v1, h1⟩, v2, h2⟩, v3, h3⟩, v4, h4⟩, v5, h5⟩, v6, h6⟩ := h
  unfold journalLine
  rw [h1, h2, h3, h4, h5, h6]
  simp

theorem renderEntries_completes {l : List Entry}
    (h : ∀ x ∈ l, hasJournalKeys x = true) : (renderEntries l).2 = true := by
  induction l with
  | nil => rfl
  | cons x xs ih =>
    obtain ⟨b, hb⟩ := Option.isSome_iff_exists.mp
      (journalLine_isSome_of_keys (h x (List.mem_cons_self x xs)))
    simp [renderEntries, hb, ih (fun y hy => h y (List.mem_cons_of_mem x hy))]

/-- C2 counterexample: an entry missing the optional track-name field
crashes the Journal Exporter with a KeyError — the export does not
complete and the completion notice is never printed. -/
theorem C2_counterexample :
    (save_spotify_data_for_journaling [entryNoTrack] "out" "2023-12-24"
        "2023-12-31" ⟨[], []⟩).2.2 = false
    ∧ (save_spotify_data_for_journaling [entryNoTrack] "out" "2023-12-24"
        "2023-12-31" ⟨[], []⟩).2.1 = [] := by
  decide

/-- C2 amended: the Journal Exporter completes without crashing exactly
when every entry carries all six indexed keys: an absent key raises
KeyError and aborts the export, while a key present with a JSON null value
is rendered as the placeholder text None; under key presence the whole
journal is written. -/
theorem C2_exporter_requires_all_keys (l : List Entry)
    (d s e : String) (fs : TextFS)
    (h : ∀ x ∈ l, hasJournalKeys x = true) :
    (save_spotify_data_for_journaling l d s e fs).2.2 = true
    ∧ readText (save_spotify_data_for_journaling l d s e fs).1
        (journalPath d s e) = some (renderEntries l).1 := by
  constructor
  · simpa [save_spotify_data_for_journaling] using renderEntries_completes h
  · simp [save_spotify_data_for_journaling, readText, writeText, addDir,
      List.lookup]

/-- Witness for the amended C2: an entry whose optional fields are null
exports successfully, rendering the placeholder None. -/
theorem C2_exporter_requires_all_keys_witness :
    (save_spotify_data_for_journaling [entryNullFields] "out" "2023-12-24"
        "2023-12-31" ⟨[], []⟩).2.2 = true
    ∧ readText (save_spotify_data_for_journaling [entryNullFields] "out"
        "2023-12-24" "2023-12-31" ⟨[], []⟩).1
        (journalPath "out" "2023-12-24" "2023-12-31")
        = some (renderEntries [entryNullFields]).1 :=
  C2_exporter_requires_all_keys [entryNullFields] "out" "2023-12-24"
    "2023-12-31" ⟨[], []⟩ (by decide)

/-- C10: every call of the journal exporter whose filtered entry list is
empty still creates the output directory, opens the date-range-named file
for writing, and completes — producing an empty journal file and
truncating (destroying) any existing file of the same name even though
nothing matched the range. -/
theorem C10_empty_export_truncates (d s e : String) (fs : TextFS) :
    save_spotify_data_for_journaling [] d s e fs
      = (writeText (addDir fs d) (journalPath d s e) "",
         ["Journal-ready Spotify data saved to: " ++ journalPath d s e], true)
    ∧ readText (save_spotify_data_for_journaling [] d s e fs).1
        (journalPath d s e) = some ""
    ∧ d ∈ (save_spotify_data_for_journaling [] d s e fs).1.dirs := by
  refine ⟨rfl, ?_, ?_⟩
  · simp [save_spotify_data_for_journaling, renderEntries, readText,
      writeText, addDir, List.lookup]
  · simp [save_spotify_data_for_journaling, renderEntries, writeText, addDir]

/-- C3 counterexample: with two files matching the naming convention in
the same run, every file `process_spotify_data` writes has the single
date-range-derived journal path — the name does not depend on the source
file — and that path finally holds the second file's journal, which
differs from the first file's journal: the first file's journal has been
overwritten, not kept as its own output. -/
theorem C3_counterexample :
    (process_spotify_data wC3 "2023-12-24" "2023-12-31" ⟨[], []⟩).1.files.all
        (fun pc => pc.1 == journalPath "out" "2023-12-24" "2023-12-31") = true
    ∧ readText (process_spotify_data wC3 "2023-12-24" "2023-12-31" ⟨[], []⟩).1
        (journalPath "out" "2023-12-24" "2023-12-31")
        = some (renderEntries [entryB]).1
    ∧ (renderEntries [entryA]).1 ≠ (renderEntries [entryB]).1 := by
  decide

/-- C3 amended: when the source directory holds two files matching the
naming convention, both are exported to the same output file, whose name
depends only on the date range; the export of the second truncates and
replaces the journal of the first, so after the run the journal file
holds exactly the last matching file's entries. -/
theorem C3_last_matching_file_wins
    (jf : List (String × List Entry)) (sp out s e n1 n2 : String)
    (l1 l2 f1 f2 : List Entry) (fs : TextFS)
    (hm1 : matchesConvention n1 = true) (hm2 : matchesConvention n2 = true)
    (hj1 : List.lookup (sp ++ "/" ++ n1) jf = some l1)
    (hj2 : List.lookup (sp ++ "/" ++ n2) jf = some l2)
    (hf1 : filter_spotify_data l1 s e = some f1)
    (hf2 : filter_spotify_data l2 s e = some f2)
    (hr1 : (renderEntries f1).2 = true) (hr2 : (renderEntries f2).2 = true) :
    (processSpotifyFiles jf sp out s e [n1, n2] fs).2.2 = true
    ∧ readText (processSpotifyFiles jf sp out s e [n1, n2] fs).1
        (journalPath out s e) = some (renderEntries f2).1 := by
  simp [processSpotifyFiles, hm1, hm2, hj1, hj2, hf1, hf2,
    save_spotify_data_for_journaling, hr1, hr2, readText, writeText, addDir,
    List.lookup]

/-- Witness for the amended C3 on the two-file world. -/
theorem C3_last_matching_file_wins_witness :
    (processSpotifyFiles wC3.jsonFiles "sp" "out" "2023-12-24" "2023-12-31"
        ["Streaming_History_Audio_2023_0.json",
         "Streaming_History_Audio_2023_1.json"] ⟨["out"], []⟩).2.2 = true
    ∧ readText (processSpotifyFiles wC3.jsonFiles "sp" "out" "2023-12-24"
        "2023-12-31"
        ["Streaming_History_Audio_2023_0.json",
         "Streaming_History_Audio_2023_1.json"] ⟨["out"], []⟩).1
        (journalPath "out" "2023-12-24" "2023-12-31")
        = some (renderEntries [entryB]).1 :=
  C3_last_matching_file_wins wC3.jsonFiles "sp" "out" "2023-12-24" "2023-12-31"
    "Streaming_History_Audio_2023_0.json" "Streaming_History_Audio_2023_1.json"
    [entryA] [entryB] [entryA] [entryB] ⟨["out"], []⟩
    (by decide) (by decide) (by decide) (by decide) (by decide) (by decide)
    (by decide) (by decide)

/-- C9: for each orchestration (log source discovery and filesystem
timestamp filter), if a required configuration value (source path or
output path) is absent or empty, or the configured source path does not
exist, the operation prints a user-facing notice and returns early without
raising an exception and without filtering, writing, or copying
anything. -/
theorem C9_missing_config_early_return
    (w : SpotifyWorld) (v : ScreenshotWorld) (s e : String) (fs : TextFS) :
    ((truthy w.spotify_data_path = false
        ∨ ∃ sp, w.spotify_data_path = some sp
            ∧ List.lookup sp w.listing = none) →
      process_spotify_data w s e fs
        = (fs, ["Spotify data path not found or not specified in .env file."],
           true))
    ∧ (∀ sp names, w.spotify_data_path = some sp →
        List.lookup sp w.listing = some names → sp ≠ "" →
        truthy w.output_path = false →
        process_spotify_data w s e fs
          = (fs, ["Output path not specified in .env file."], true))
    ∧ ((truthy v.screenshots_path = false
        ∨ ∃ sp, v.screenshots_path = some sp
            ∧ List.lookup sp v.listing = none) →
      process_screenshots v s e
        = ([], ["Screenshots path not found or not specified in .env file."],
           true))
    ∧ (∀ sp names, v.screenshots_path = some sp →
        List.lookup sp v.listing = some names → sp ≠ "" →
        truthy v.output_path = false →
        process_screenshots v s e
          = ([], ["Output path not specified in .env file."], true)) := by
  refine ⟨?_, ?_, ?_, ?_⟩
  · intro hcond
    cases hpath : w.spotify_data_path with
    | none => simp [process_spotify_data, hpath]
    | some sp =>
      by_cases hsp : sp = ""
      · subst hsp
        simp [process_spotify_data, hpath]
      · rcases hcond with hf | ⟨sp', hsp', hlook⟩
        · rw [hpath] at hf
          simp [truthy, hsp] at hf
        · rw [hpath] at hsp'
          injection hsp' with hh
          subst hh
          simp [process_spotify_data, hpath, hsp, hlook]
  · intro sp names hsp hlook hne hout
    cases hop : w.output_path with
    | none => simp [process_spotify_data, hsp, hne, hlook, hop]
    | some op =>
      have hop' : op = "" := by
        rw [hop] at hout
        simpa [truthy] using hout
      subst hop'
      simp [process_spotify_data, hsp, hne, hlook, hop]
  · intro hcond
    cases hpath : v.screenshots_path with
    | none => simp [process_screenshots, hpath]
    | some sp =>
      by_cases hsp : sp = ""
      · subst hsp
        simp [process_screenshots, hpath]
      · rcases hcond with hf | ⟨sp', hsp', hlook⟩
        · rw [hpath] at hf
          simp [truthy, hsp] at hf
        · rw [hpath] at hsp'
          injection hsp' with hh
          subst hh
          simp [process_screenshots, hpath, hsp, hlook]
  · intro sp names hsp hlook hne hout
    cases hop : v.output_path with
    | none => simp [process_screenshots, hsp, hne, hlook, hop]
    | some op =>
      have hop' : op = "" := by
        rw [hop] at hout
        simpa [truthy] using hout
      subst hop'
      simp [process_screenshots, hsp, hne, hlook, hop]

/-- Witness for C9: an unset Spotify path and a nonexistent screenshots
directory both return early with the printed notice. -/
theorem C9_missing_config_early_return_witness :
    process_spotify_data wEmpty "2023-12-24" "2023-12-31" ⟨[], []⟩
      = (⟨[], []⟩,
         ["Spotify data path not found or not specified in .env file."], true)
    ∧ process_screenshots vMissingDir "2023-12-24" "2023-12-31"
      = ([], ["Screenshots path not found or not specified in .env file."],
         true) :=
  ⟨(C9_missing_config_early_return wEmpty vMissingDir "2023-12-24" "2023-12-31"
      ⟨[], []⟩).1 (Or.inl (by decide)),
   (C9_missing_config_early_return wEmpty vMissingDir "2023-12-24" "2023-12-31"
      ⟨[], []⟩).2.2.1 (Or.inr ⟨"shots", by decide, by decide⟩)⟩

